import Mathlib

/-!
Verification of the orchestration logic of `gopro_telemetry.py`
(class `GoProTelemetry`).

The script is a sequencing layer over external tools (ffprobe, ffmpeg and
four telemetry converters).  We embed its pure decision logic shallowly:

* filesystem paths are `String`s; the set of existing regular files is a
  `List String`; `os.path.isfile` is membership;
* external subprocesses are an oracle `world : List String → Int` mapping a
  command (argv list) to its exit code; `subprocess.run` + the return-code
  check of `call_subprocess` become `Option CalledProcessError`;
* Python `str.replace` (replace **all** non-overlapping occurrences, left to
  right) and `in` (substring test) are re-implemented on `List Char`;
* `re.search` for the nine serial patterns (a literal prefix followed by a
  fixed number of `.`, i.e. arbitrary non-newline characters) is modelled as
  a leftmost-match scan;
* `os.rename` either succeeds or raises; the boolean `renameOk` parameter
  selects the outcome, and the embedding reproduces the *exact order* of the
  Python statements (in the source `self.filename` is assigned **before**
  `os.rename` is called, the two path fields after);
* `bytes.decode("utf-8")` is modelled on the ASCII range (camera serial
  numbers are ASCII); any byte ≥ 0x80 is conservatively treated as the
  raising path — no claim below distinguishes non-ASCII decodes;
* `dateutil.parser.parse` (an external library) is modelled on ISO-8601
  date-times of the shape produced by GoPro containers
  (`YYYY-MM-DD[T ]HH:MM:SS...`), the only shape the spec exercises;
* `os.path.abspath` on an already absolute, normalized path is the identity,
  and `os.path.abspath(os.path.join(p, os.pardir))` is the parent directory;
  the constructor model `initPaths` is stated for such paths.
-/

namespace GoProTelemetry

/-! ## Python string primitives on `List Char` -/

/-- Number of positions of `s` at which `pat` matches (occurrences may
overlap).  `countSubstr s pat = 0` is exactly Python's `pat not in s`. -/
def countSubstr : List Char → List Char → Nat
  | [], pat => if pat.isEmpty then 1 else 0
  | c :: t, pat => (if pat.isPrefixOf (c :: t) then 1 else 0) + countSubstr t pat

/-- Python's `sub in s` substring test. -/
def pyIn (sub s : String) : Bool := countSubstr s.data sub.data != 0

/-- Fuel-indexed worker for Python `str.replace` with a non-empty pattern:
replaces all non-overlapping occurrences, scanning left to right.  Called
with `fuel = s.length` (the fuel never runs out on that call; structural
recursion keeps the function kernel-computable). -/
def pyReplaceAux (pat new : List Char) : Nat → List Char → List Char
  | _, [] => []
  | 0, s => s
  | fuel + 1, c :: t =>
    if pat.isPrefixOf (c :: t) then
      new ++ pyReplaceAux pat new fuel ((c :: t).drop pat.length)
    else
      c :: pyReplaceAux pat new fuel t

/-- Python `s.replace(pat, new)` on `List Char`, including the empty-pattern
corner case (`"ab".replace("", "X") = "XaXbX"`). -/
def pyReplaceL (s pat new : List Char) : List Char :=
  if pat.isEmpty then new ++ (s.map fun c => c :: new).flatten
  else pyReplaceAux pat new s.length s

/-- Python `s.replace(pat, new)` on `String`. -/
def pyReplace (s pat new : String) : String := ⟨pyReplaceL s.data pat.data new.data⟩

/-- Leftmost match of the regex `pre.{extra}` (a literal prefix followed by
`extra` arbitrary non-newline characters), returning `group(0)` like
`re.search`. -/
def reSearch (pre : List Char) (extra : Nat) : List Char → Option (List Char)
  | [] => if pre.isEmpty && extra == 0 then some [] else none
  | c :: t =>
    if pre.isPrefixOf (c :: t) && decide (pre.length + extra ≤ (c :: t).length)
        && ((c :: t).drop pre.length |>.take extra).all (fun ch => ch != '\n') then
      some ((c :: t).take (pre.length + extra))
    else
      reSearch pre extra t

/-! ## Path helpers (`os.path`) -/

/-- `os.path.basename` for paths using `/` separators. -/
def pyBasename (p : String) : String :=
  ⟨(p.data.reverse.takeWhile fun c => c ≠ '/').reverse⟩

/-- `os.path.abspath(os.path.join(p, os.pardir))` for an absolute,
normalized `p`: the parent directory. -/
def pyParentDir (p : String) : String :=
  let d := (p.data.reverse.dropWhile fun c => c ≠ '/').drop 1 |>.reverse
  if d.isEmpty then "/" else ⟨d⟩

/-- `os.path.join(a, b)` for the shapes the script produces (`b` is a bare
filename, never absolute). -/
def pyJoin (a b : String) : String :=
  if b.data.take 1 = ['/'] then b
  else if a.data.isEmpty then b
  else if a.data.getLast? = some '/' then a ++ b
  else a ++ "/" ++ b

/-! ## Data model -/

/-- One entry of `ffprobe_streams["streams"]` (the fields the script reads
when locating a stream). -/
structure StreamDescriptor where
  index : Int
  codec_tag_string : String
deriving DecidableEq, Repr

/-- The mutable per-run fields of a `GoProTelemetry` object that the rename
and extraction steps read and write. -/
structure GoProState where
  reprocess : Bool
  video_dir : String
  filename : String
  video_path : String
  telemetry_path : String
deriving DecidableEq, Repr

/-- Result of one filename-normalization step: the resulting in-memory
state, the filesystem rename actually performed (`some (src, dst)`), and
whether an exception propagated (`error = true` means the step raised). -/
structure RenameOutcome where
  state : GoProState
  renamed : Option (String × String)
  error : Bool
deriving DecidableEq, Repr

/-- `subprocess.CalledProcessError(returncode, " ".join(command))` as raised
by `call_subprocess`. -/
structure CalledProcessError where
  returncode : Int
  cmd : String
deriving DecidableEq, Repr

/-- Paths of the five external executables loaded from `config.yml`. -/
structure ToolPaths where
  gopro2gpx_path : String
  gopro2json_path : String
  gpmdinfo_path : String
  gopro2csv_path : String
  gps2kml_path : String
deriving DecidableEq, Repr

/-- `os.path.isfile`: the filesystem is the list of existing regular files. -/
def isfile (fs : List String) (p : String) : Bool := fs.contains p

/-- `GoProTelemetry.call_subprocess`: run the command, raise
`CalledProcessError` on a non-zero exit code. -/
def call_subprocess (world : List String → Int) (command : List String) :
    Option CalledProcessError :=
  if world command = 0 then none
  else some ⟨world command, String.intercalate " " command⟩

/-- `str(stream_index)` where the index is `None` or an int (Python renders
`None` as `"None"`). -/
def pyStrOptInt : Option Int → String
  | none => "None"
  | some i => toString i

/-- `GoProTelemetry.ffmpeg_command`. -/
def ffmpeg_command (video_path : String) (stream_index : Option Int)
    (output_path : String) : List String :=
  ["ffmpeg", "-v", "quiet", "-y", "-i", video_path, "-codec", "copy",
   "-map", "0:" ++ pyStrOptInt stream_index, "-f", "rawvideo", output_path]

/-- `GoProTelemetry.get_stream_index`: index of the first stream whose
`codec_tag_string` equals the tag; `None` (here `none`) when absent — the
Python `for` loop falls through without raising. -/
def get_stream_index (streams : List StreamDescriptor) (code_tag_string : String) :
    Option Int :=
  (streams.find? fun s => s.codec_tag_string == code_tag_string).map (·.index)

/-! ## Constructor path fields -/

/-- The path fields set by `GoProTelemetry.__init__` (lines 29–33), for an
absolute normalized `video_path` argument (so that `os.path.abspath` is the
identity).  Note `telemetry_path` is built from the *raw* argument. -/
def initPaths (reprocess : Bool) (video_path : String) : GoProState :=
  { reprocess := reprocess
    video_dir := pyParentDir video_path
    filename := pyBasename video_path
    video_path := video_path
    telemetry_path := video_path ++ ".bin" }

/-! ## Serial patterns and retrieval -/

/-- The nine GoPro serial patterns of `filename_contains_serial`, in source
order: a literal prefix plus the number of trailing `.` wildcards. -/
def serial_regex : List (String × Nat) :=
  [("C33", 11), ("C322", 10), ("C32", 11), ("C31", 11), ("H3", 13),
   ("HD3", 12), ("H2", 12), ("HD2", 11), ("HD1", 10)]

/-- `GoProTelemetry.filename_contains_serial`: first pattern (in list
order) whose `re.search` finds a match; `None` otherwise. -/
def filename_contains_serial (filename : String) : Option String :=
  serial_regex.findSome? fun pr =>
    (reSearch pr.1.data pr.2 filename.data).map fun l => String.mk l

/-- `bytes.decode("utf-8")` modelled on the ASCII range; a byte ≥ 0x80 takes
the raising path (no claim distinguishes valid multi-byte sequences). -/
def pyDecodeUtf8 (bs : List Nat) : Option String :=
  if bs.all fun b => b < 128 then some ⟨bs.map Char.ofNat⟩ else none

/-- The pure value computed by `GoProTelemetry.retrieve_camera_serial` from
the bytes the demuxer wrote to the temporary `fdsc` file: skip 87 bytes,
read 14, decode as text. -/
def retrieve_camera_serial (fdsc_bytes : List Nat) : Option String :=
  pyDecodeUtf8 ((fdsc_bytes.drop 87).take 14)

/-- Full trace of `retrieve_camera_serial`: temporary output path, demux
command, decoded serial, and whether `os.remove` on the temporary file was
reached (it is skipped when the decode raises). -/
structure RetrieveTrace where
  temp_path : String
  command : List String
  serial : Option String
  temp_deleted : Bool
deriving DecidableEq, Repr

/-- `GoProTelemetry.retrieve_camera_serial`, lines 202–213. -/
def retrieve_camera_serial_trace (video_path : String)
    (streams : List StreamDescriptor) (fdsc_bytes : List Nat) : RetrieveTrace :=
  let temp_output_path := video_path ++ "_fdsc.bin"
  { temp_path := temp_output_path
    command := ffmpeg_command video_path (get_stream_index streams "fdsc")
      temp_output_path
    serial := retrieve_camera_serial fdsc_bytes
    temp_deleted := (retrieve_camera_serial fdsc_bytes).isSome }

/-! ## Filename normalization steps -/

/-- `GoProTelemetry.process_prepend_filename_with_serial`, lines 53–68.
The statement order of the source is preserved: when a rename is attempted,
`self.filename` is assigned *before* `os.rename(...)`; the two path fields
are assigned after it, so a raising rename leaves them at their old
values.  `fdsc_bytes` are the bytes the demuxer writes for the device-info
stream, `renameOk` whether `os.rename` succeeds. -/
def process_prepend_filename_with_serial (st : GoProState)
    (fdsc_bytes : List Nat) (renameOk : Bool) : RenameOutcome :=
  match filename_contains_serial st.filename with
  | some _ => ⟨st, none, false⟩
  | none =>
    match retrieve_camera_serial fdsc_bytes with
    | none => ⟨st, none, true⟩
    | some camera_serial =>
      let new_filename := camera_serial ++ "_" ++ st.filename
      let new_video_path := pyReplace st.video_path st.filename new_filename
      let new_telemetry_path := pyReplace st.telemetry_path st.filename new_filename
      if renameOk then
        ⟨{ st with
            filename := new_filename
            video_path := new_video_path
            telemetry_path := new_telemetry_path },
         some (st.video_path, new_video_path), false⟩
      else
        ⟨{ st with filename := new_filename }, none, true⟩

/-- A parsed `creation_time` (the fields `strftime` reads). -/
structure DateTime where
  year : Nat
  month : Nat
  day : Nat
  hour : Nat
  minute : Nat
  second : Nat
deriving DecidableEq, Repr

/-- Decimal digit value of a character, if any. -/
def digitVal (c : Char) : Option Nat :=
  if c.isDigit then some (c.toNat - 48) else none

/-- `dateutil.parser.parse` modelled on ISO-8601 date-times
`YYYY-MM-DD[T ]HH:MM:SS...` (trailing timezone designators are accepted and
ignored, as `strftime` below never reads them); anything else takes the
raising path. -/
def parseISO (s : String) : Option DateTime :=
  match s.data with
  | y1 :: y2 :: y3 :: y4 :: '-' :: m1 :: m2 :: '-' :: d1 :: d2 :: sep ::
      h1 :: h2 :: ':' :: n1 :: n2 :: ':' :: s1 :: s2 :: _ =>
    if (sep = 'T' ∨ sep = ' ') ∧
        [y1, y2, y3, y4, m1, m2, d1, d2, h1, h2, n1, n2, s1, s2].all Char.isDigit then
      let num := fun (a b : Char) => (a.toNat - 48) * 10 + (b.toNat - 48)
      let dt : DateTime :=
        { year := ((y1.toNat - 48) * 10 + (y2.toNat - 48)) * 100 + num y3 y4
          month := num m1 m2, day := num d1 d2
          hour := num h1 h2, minute := num n1 n2, second := num s1 s2 }
      if 1 ≤ dt.month ∧ dt.month ≤ 12 ∧ 1 ≤ dt.day ∧ dt.day ≤ 31 ∧
          dt.hour < 24 ∧ dt.minute < 60 ∧ dt.second < 60 then
        some dt
      else none
    else none
  | _ => none

/-- Zero-pad a number to two digits (`strftime` field). -/
def pad2 (n : Nat) : String := if n < 10 then "0" ++ toString n else toString n

/-- Zero-pad a year to four digits (`strftime` `%Y`). -/
def pad4 (n : Nat) : String :=
  if n < 10 then "000" ++ toString n
  else if n < 100 then "00" ++ toString n
  else if n < 1000 then "0" ++ toString n
  else toString n

/-- `creation_time.strftime("%Y-%m-%dT%H%M%S")`. -/
def strftimeTs (dt : DateTime) : String :=
  pad4 dt.year ++ "-" ++ pad2 dt.month ++ "-" ++ pad2 dt.day ++ "T" ++
    pad2 dt.hour ++ pad2 dt.minute ++ pad2 dt.second

/-- `GoProTelemetry.append_filename_with_timestamp`, lines 70–85.
`creation_time_tag` is `ffprobe_streams["format"]["tags"]["creation_time"]`.
As in the serial case the source assigns `self.filename` before calling
`os.rename`. -/
def append_filename_with_timestamp (st : GoProState)
    (creation_time_tag : String) (renameOk : Bool) : RenameOutcome :=
  match parseISO creation_time_tag with
  | none => ⟨st, none, true⟩
  | some creation_time =>
    let timestamp := strftimeTs creation_time
    if pyIn timestamp st.filename then ⟨st, none, false⟩
    else
      let new_filename := pyReplace st.filename ".MP4" ("_" ++ timestamp ++ ".MP4")
      let new_video_path := pyReplace st.video_path st.filename new_filename
      let new_telemetry_path := pyReplace st.telemetry_path st.filename new_filename
      if renameOk then
        ⟨{ st with
            filename := new_filename
            video_path := new_video_path
            telemetry_path := new_telemetry_path },
         some (st.video_path, new_video_path), false⟩
      else
        ⟨{ st with filename := new_filename }, none, true⟩

/-! ## Extraction and conversion steps -/

/-- `GoProTelemetry.extract_telemetry`, lines 99–107: returns the commands
invoked (in order) and the exception, if any, that propagated. -/
def extract_telemetry (streams : List StreamDescriptor) (st : GoProState)
    (fs : List String) (world : List String → Int) :
    List (List String) × Option CalledProcessError :=
  if st.reprocess || !isfile fs st.telemetry_path then
    let command := ffmpeg_command st.video_path (get_stream_index streams "gpmd")
      st.telemetry_path
    ([command], call_subprocess world command)
  else ([], none)

/-- `GoProTelemetry.extract_gpx`, lines 116–122. -/
def extract_gpx (tools : ToolPaths) (st : GoProState) (fs : List String)
    (world : List String → Int) : List (List String) × Option CalledProcessError :=
  let gpx_path := pyJoin st.video_dir (st.filename ++ ".gpx")
  if st.reprocess || !isfile fs gpx_path then
    let command := [tools.gopro2gpx_path, "-i", st.telemetry_path, "-o", gpx_path]
    ([command], call_subprocess world command)
  else ([], none)

/-- `GoProTelemetry.extract_json`, lines 124–130. -/
def extract_json (tools : ToolPaths) (st : GoProState) (fs : List String)
    (world : List String → Int) : List (List String) × Option CalledProcessError :=
  let json_path := pyJoin st.video_dir (st.filename ++ ".json")
  if st.reprocess || !isfile fs json_path then
    let command := [tools.gopro2json_path, "-i", st.telemetry_path, "-o", json_path]
    ([command], call_subprocess world command)
  else ([], none)

/-- `GoProTelemetry.extract_csv`, lines 158–164. -/
def extract_csv (tools : ToolPaths) (st : GoProState) (fs : List String)
    (world : List String → Int) : List (List String) × Option CalledProcessError :=
  let csv_path := pyJoin st.video_dir (st.filename ++ ".csv")
  if st.reprocess || !isfile fs csv_path then
    let command := [tools.gopro2csv_path, "-i", st.telemetry_path, "-o", csv_path]
    ([command], call_subprocess world command)
  else ([], none)

/-- `GoProTelemetry.extract_kml`, lines 166–172. -/
def extract_kml (tools : ToolPaths) (st : GoProState) (fs : List String)
    (world : List String → Int) : List (List String) × Option CalledProcessError :=
  let kml_path := pyJoin st.video_dir (st.filename ++ ".kml")
  if st.reprocess || !isfile fs kml_path then
    let command := [tools.gps2kml_path, "-i", st.telemetry_path, "-o", kml_path]
    ([command], call_subprocess world command)
  else ([], none)

/-- `GoProTelemetry.extract_all`, lines 109–114: run GPX, JSON, CSV, KML in
that order (the metadata step is commented out in the source); an exception
from any step propagates, skipping the remaining steps. -/
def extract_all (tools : ToolPaths) (st : GoProState) (fs : List String)
    (world : List String → Int) : List (List String) × Option CalledProcessError :=
  let g := extract_gpx tools st fs world
  match g.2 with
  | some e => (g.1, some e)
  | none =>
    let j := extract_json tools st fs world
    match j.2 with
    | some e => (g.1 ++ j.1, some e)
    | none =>
      let c := extract_csv tools st fs world
      match c.2 with
      | some e => (g.1 ++ j.1 ++ c.1, some e)
      | none =>
        let k := extract_kml tools st fs world
        (g.1 ++ j.1 ++ c.1 ++ k.1, k.2)

/-! ## Lemmas about the string primitives -/

theorem length_le_of_isPrefixOf :
    ∀ {f l : List Char}, f.isPrefixOf l = true → f.length ≤ l.length := by
  intro f
  induction f with
  | nil => intro l _; simp
  | cons a as ih =>
    intro l h
    cases l with
    | nil => simp [List.isPrefixOf] at h
    | cons b bs =>
      simp only [List.isPrefixOf, Bool.and_eq_true] at h
      simpa using ih h.2

theorem isPrefixOf_append_self :
    ∀ (f b : List Char), f.isPrefixOf (f ++ b) = true := by
  intro f b
  induction f with
  | nil => exact List.isPrefixOf_nil_left
  | cons a as ih => simp [List.isPrefixOf, ih]

theorem isPrefixOf_of_append :
    ∀ {f x : List Char} (y : List Char), f.isPrefixOf (x ++ y) = true →
      f.length ≤ x.length → f.isPrefixOf x = true := by
  intro f
  induction f with
  | nil => intro x y _ _; exact List.isPrefixOf_nil_left
  | cons a as ih =>
    intro x y h hl
    cases x with
    | nil => simp at hl
    | cons b bs =>
      simp only [List.cons_append, List.isPrefixOf, Bool.and_eq_true] at h ⊢
      exact ⟨h.1, ih y h.2 (by simpa using hl)⟩

theorem get_of_isPrefixOf :
    ∀ {f l : List Char}, f.isPrefixOf l = true →
      ∀ i (hi : i < f.length) (hl : i < l.length), f.get ⟨i, hi⟩ = l.get ⟨i, hl⟩ := by
  intro f
  induction f with
  | nil => intro l _ i hi; simp at hi
  | cons a as ih =>
    intro l h i hi hl
    cases l with
    | nil => simp [List.isPrefixOf] at h
    | cons b bs =>
      simp only [List.isPrefixOf, Bool.and_eq_true] at h
      cases i with
      | zero => simpa using beq_iff_eq.mp h.1
      | succ j => simpa using ih h.2 j (by simpa using hi) (by simpa using hl)

theorem countSubstr_cons (c : Char) (t pat : List Char) :
    countSubstr (c :: t) pat =
      (if pat.isPrefixOf (c :: t) then 1 else 0) + countSubstr t pat := rfl

theorem le_countSubstr_cons (c : Char) (t pat : List Char) :
    countSubstr t pat ≤ countSubstr (c :: t) pat := by
  rw [countSubstr_cons]; omega

theorem countSubstr_pos_of_drop {pat : List Char} (hp : pat ≠ []) :
    ∀ (k : Nat) (s : List Char), pat.isPrefixOf (s.drop k) = true →
      1 ≤ countSubstr s pat := by
  intro k
  induction k with
  | zero =>
    intro s h
    cases s with
    | nil =>
      cases pat with
      | nil => exact absurd rfl hp
      | cons a as => simp [List.isPrefixOf] at h
    | cons c t => rw [countSubstr_cons, List.drop_zero] at *; simp [h]
  | succ k ih =>
    intro s h
    cases s with
    | nil =>
      cases pat with
      | nil => exact absurd rfl hp
      | cons a as => simp [List.isPrefixOf] at h
    | cons c t =>
      have := ih t (by simpa using h)
      calc 1 ≤ countSubstr t pat := this
        _ ≤ countSubstr (c :: t) pat := le_countSubstr_cons c t pat

theorem countSubstr_append_self {f : List Char} (hf : f ≠ []) (a : List Char) :
    1 ≤ countSubstr (a ++ f) f := by
  refine countSubstr_pos_of_drop hf a.length (a ++ f) ?_
  rw [List.drop_left]
  cases f with
  | nil => exact absurd rfl hf
  | cons b bs => simp [List.isPrefixOf, isPrefixOf_append_self bs []]

theorem pyReplaceAux_nil (pat new : List Char) :
    ∀ fuel, pyReplaceAux pat new fuel [] = [] := by
  intro fuel; cases fuel <;> rfl

theorem pyReplaceAux_fuel {pat : List Char} (new : List Char) (hp : pat ≠ []) :
    ∀ f1 f2 s, s.length ≤ f1 → s.length ≤ f2 →
      pyReplaceAux pat new f1 s = pyReplaceAux pat new f2 s := by
  intro f1
  induction f1 with
  | zero =>
    intro f2 s h1 _
    have hs : s = [] := List.length_eq_zero.mp (Nat.le_zero.mp h1)
    subst hs
    rw [pyReplaceAux_nil, pyReplaceAux_nil]
  | succ f1 ih =>
    intro f2 s h1 h2
    cases s with
    | nil => rw [pyReplaceAux_nil, pyReplaceAux_nil]
    | cons c t =>
      have hlen : (c :: t).length = t.length + 1 := rfl
      cases f2 with
      | zero => simp at h2
      | succ f2 =>
        simp only [pyReplaceAux]
        by_cases hpre : pat.isPrefixOf (c :: t) = true
        · have hd : ((c :: t).drop pat.length).length ≤ f1 := by
            have := length_le_of_isPrefixOf hpre
            have hplen : 1 ≤ pat.length := by
              cases pat with
              | nil => exact absurd rfl hp
              | cons p ps => simp
            rw [List.length_drop]
            simp only [hlen] at h1 ⊢
            omega
          have hd2 : ((c :: t).drop pat.length).length ≤ f2 := by
            have hplen : 1 ≤ pat.length := by
              cases pat with
              | nil => exact absurd rfl hp
              | cons p ps => simp
            rw [List.length_drop]
            simp only [hlen] at h2 ⊢
            omega
          simp only [hpre, if_true]
          rw [ih f2 _ hd hd2]
        · have ht1 : t.length ≤ f1 := by simp only [hlen] at h1; omega
          have ht2 : t.length ≤ f2 := by simp only [hlen] at h2; omega
          simp only [hpre, if_false, Bool.false_eq_true]
          rw [ih f2 t ht1 ht2]

theorem pyReplaceL_nil (pat new : List Char) (hp : pat ≠ []) :
    pyReplaceL [] pat new = [] := by
  unfold pyReplaceL
  rw [if_neg (by simpa [List.isEmpty_iff] using hp)]
  rfl

theorem pyReplaceL_pos {s pat : List Char} (new : List Char) (hp : pat ≠ [])
    (hpre : pat.isPrefixOf s = true) :
    pyReplaceL s pat new = new ++ pyReplaceL (s.drop pat.length) pat new := by
  have hplen : 1 ≤ pat.length := by
    cases pat with
    | nil => exact absurd rfl hp
    | cons p ps => simp
  cases s with
  | nil =>
    have hle : pat.length ≤ 0 := by simpa using length_le_of_isPrefixOf hpre
    exact absurd (List.length_eq_zero.mp (Nat.le_zero.mp hle)) hp
  | cons c t =>
    unfold pyReplaceL
    rw [if_neg (by simpa [List.isEmpty_iff] using hp),
        if_neg (by simpa [List.isEmpty_iff] using hp)]
    show pyReplaceAux pat new (t.length + 1) (c :: t) = _
    simp only [pyReplaceAux, hpre, if_true]
    congr 1
    refine pyReplaceAux_fuel new hp _ _ _ ?_ ?_
    · have := length_le_of_isPrefixOf hpre
      rw [List.length_drop]
      simp at this ⊢
      omega
    · exact Nat.le_refl _

theorem pyReplaceL_neg {pat : List Char} (new : List Char) (c : Char) (t : List Char)
    (hpre : pat.isPrefixOf (c :: t) = false) :
    pyReplaceL (c :: t) pat new = c :: pyReplaceL t pat new := by
  have hp : pat ≠ [] := by
    intro h; subst h
    rw [List.isPrefixOf_nil_left] at hpre
    simp at hpre
  unfold pyReplaceL
  rw [if_neg (by simpa [List.isEmpty_iff] using hp),
      if_neg (by simpa [List.isEmpty_iff] using hp)]
  show pyReplaceAux pat new (t.length + 1) (c :: t) = _
  simp only [pyReplaceAux, hpre, if_false, Bool.false_eq_true]

theorem pyReplaceL_of_countSubstr_zero {s pat : List Char} (new : List Char)
    (h : countSubstr s pat = 0) : pyReplaceL s pat new = s := by
  have hp : pat ≠ [] := by
    intro he; subst he
    cases s <;> simp [countSubstr, List.isPrefixOf_nil_left] at h
  induction s with
  | nil => exact pyReplaceL_nil pat new hp
  | cons c t ih =>
    rw [countSubstr_cons] at h
    cases hpre : pat.isPrefixOf (c :: t) with
    | true => rw [hpre] at h; simp at h
    | false =>
      rw [hpre] at h
      simp only [if_false, Bool.false_eq_true, Nat.zero_add] at h
      rw [pyReplaceL_neg new c t hpre, ih h]

theorem countSubstr_zero_of_no_drop {s pat : List Char} (hp : pat ≠ [])
    (h : ∀ k, pat.isPrefixOf (s.drop k) = false) : countSubstr s pat = 0 := by
  induction s with
  | nil =>
    cases pat with
    | nil => exact absurd rfl hp
    | cons p ps => simp [countSubstr]
  | cons c t ih =>
    rw [countSubstr_cons]
    have h0 := h 0
    rw [List.drop_zero] at h0
    rw [h0, ih fun k => by simpa using h (k + 1)]
    simp

theorem isPrefixOf_drop_self {f : List Char} (hf : f ≠ []) {k : Nat} (hk : 0 < k) :
    f.isPrefixOf (f.drop k) = false := by
  cases hb : f.isPrefixOf (f.drop k) with
  | false => rfl
  | true =>
    have hle := length_le_of_isPrefixOf hb
    rw [List.length_drop] at hle
    have hflen : 0 < f.length := by
      cases f with
      | nil => exact absurd rfl hf
      | cons a as => simp
    omega

theorem pyReplaceL_single_occ {f : List Char} (nf b : List Char) (hf : f ≠ [])
    (hb : ∀ k, 0 < k → f.isPrefixOf ((f ++ b).drop k) = false) :
    ∀ a : List Char, countSubstr (a ++ f) f = 1 →
      pyReplaceL (a ++ f ++ b) f nf = a ++ nf ++ b := by
  intro a
  induction a with
  | nil =>
    intro _
    simp only [List.nil_append]
    rw [pyReplaceL_pos nf hf (isPrefixOf_append_self f b), List.drop_left]
    have hzero : countSubstr b f = 0 := by
      refine countSubstr_zero_of_no_drop hf fun k => ?_
      have hflen : 0 < f.length := by
        cases f with
        | nil => exact absurd rfl hf
        | cons x xs => simp
      have := hb (f.length + k) (by omega)
      rwa [List.drop_append k] at this
    rw [pyReplaceL_of_countSubstr_zero nf hzero]
  | cons c a ih =>
    intro hcount
    simp only [List.cons_append] at hcount ⊢
    have htail : 1 ≤ countSubstr (a ++ f) f := countSubstr_append_self hf a
    have hconsPre : f.isPrefixOf (c :: (a ++ f)) = false := by
      cases hx : f.isPrefixOf (c :: (a ++ f)) with
      | false => rfl
      | true =>
        rw [countSubstr_cons] at hcount
        simp only [hx, if_true] at hcount
        omega
    have hstepPre : f.isPrefixOf (c :: (a ++ f ++ b)) = false := by
      cases hx : f.isPrefixOf (c :: (a ++ f ++ b)) with
      | false => rfl
      | true =>
        have hle : f.length ≤ (c :: (a ++ f)).length := by
          simp
          omega
        have hx2 : f.isPrefixOf ((c :: (a ++ f)) ++ b) = true := by
          simpa [List.append_assoc] using hx
        have := isPrefixOf_of_append b hx2 hle
        rw [this] at hconsPre
        exact absurd hconsPre (by simp)
    have hcount2 : countSubstr (a ++ f) f = 1 := by
      rw [countSubstr_cons, hconsPre] at hcount
      simpa using hcount
    rw [pyReplaceL_neg nf c (a ++ f ++ b) hstepPre, ih hcount2]

theorem no_shift_occurrence {f b : List Char} {ch : Char} (hchf : ch ∈ f)
    (hchb : ch ∉ b) {k : Nat} (hk : 0 < k) :
    f.isPrefixOf ((f ++ b).drop k) = false := by
  cases hx : f.isPrefixOf ((f ++ b).drop k) with
  | false => rfl
  | true =>
    exfalso
    have hf : f ≠ [] := by
      intro he; subst he; simp at hchf
    have hflen : 0 < f.length := by
      cases f with
      | nil => exact absurd rfl hf
      | cons x xs => simp
    have hlen := length_le_of_isPrefixOf hx
    rw [List.length_drop, List.length_append] at hlen
    have hkb : k ≤ b.length := by omega
    have key : ∀ d i (hi : i < f.length), f.length - i ≤ d → f.get ⟨i, hi⟩ ∈ b := by
      intro d
      induction d with
      | zero => intro i hi hle; omega
      | succ d ih =>
        intro i hi hle
        have hidrop : i < ((f ++ b).drop k).length := by
          rw [List.length_drop, List.length_append]; omega
        have hstep : f.get ⟨i, hi⟩ = (f ++ b).get ⟨k + i, by simp; omega⟩ := by
          rw [get_of_isPrefixOf hx i hi hidrop]
          simp only [List.get_eq_getElem]
          rw [List.getElem_drop]
        by_cases hcase : k + i < f.length
        · have hget : (f ++ b).get ⟨k + i, by simp; omega⟩ = f.get ⟨k + i, hcase⟩ := by
            simp only [List.get_eq_getElem]
            exact List.getElem_append_left hcase
          have := ih (k + i) hcase (by omega)
          rw [hstep, hget]
          exact this
        · have hkb2 : k + i - f.length < b.length := by omega
          have hget : (f ++ b).get ⟨k + i, by simp; omega⟩ =
              b.get ⟨k + i - f.length, hkb2⟩ := by
            simp only [List.get_eq_getElem]
            exact List.getElem_append_right (by omega)
          rw [hstep, hget]
          exact b.get_mem _ _
    obtain ⟨i, hgi⟩ := List.mem_iff_get.mp hchf
    exact hchb (by rw [← hgi]; exact key f.length i.1 i.2 (by omega))

theorem pyReplaceL_single_cor (a : List Char) {f : List Char} (nf b : List Char)
    {ch : Char} (hch : ch ∈ f) (hb : ch ∉ b)
    (hcount : countSubstr (a ++ f) f = 1) :
    pyReplaceL (a ++ f ++ b) f nf = a ++ nf ++ b := by
  have hf : f ≠ [] := by intro he; subst he; simp at hch
  exact pyReplaceL_single_occ nf b hf (fun k hk => no_shift_occurrence hch hb hk)
    a hcount

/-! ## Unfolding lemmas for the two rename steps -/

theorem prepend_rename_eq (st : GoProState) (fdsc_bytes : List Nat)
    (serial : String) (renameOk : Bool)
    (hpat : filename_contains_serial st.filename = none)
    (hser : retrieve_camera_serial fdsc_bytes = some serial) :
    process_prepend_filename_with_serial st fdsc_bytes renameOk =
      (let new_filename := serial ++ "_" ++ st.filename
       let new_video_path := pyReplace st.video_path st.filename new_filename
       let new_telemetry_path := pyReplace st.telemetry_path st.filename new_filename
       if renameOk then
         ⟨{ st with
             filename := new_filename
             video_path := new_video_path
             telemetry_path := new_telemetry_path },
          some (st.video_path, new_video_path), false⟩
       else
         ⟨{ st with filename := new_filename }, none, true⟩) := by
  unfold process_prepend_filename_with_serial
  rw [hpat, hser]

theorem append_rename_eq (st : GoProState) (creation_time_tag : String)
    (dt : DateTime) (renameOk : Bool)
    (hparse : parseISO creation_time_tag = some dt)
    (hts : pyIn (strftimeTs dt) st.filename = false) :
    append_filename_with_timestamp st creation_time_tag renameOk =
      (let new_filename :=
         pyReplace st.filename ".MP4" ("_" ++ strftimeTs dt ++ ".MP4")
       let new_video_path := pyReplace st.video_path st.filename new_filename
       let new_telemetry_path := pyReplace st.telemetry_path st.filename new_filename
       if renameOk then
         ⟨{ st with
             filename := new_filename
             video_path := new_video_path
             telemetry_path := new_telemetry_path },
          some (st.video_path, new_video_path), false⟩
       else
         ⟨{ st with filename := new_filename }, none, true⟩) := by
  unfold append_filename_with_timestamp
  rw [hparse]
  simp only [hts, Bool.false_eq_true, if_false]

/-- Under the single-occurrence precondition (plus the reachability fact
that a processed filename contains the character `G`, which the literal
suffixes `""` and `".bin"` do not), the textual `str.replace` used by both
rename steps rewrites the two path fields to exactly the
directory-joined forms. -/
theorem rename_path_update (video_dir filename nf : String)
    (hG : 'G' ∈ filename.data)
    (hcount : countSubstr (video_dir ++ "/" ++ filename).data filename.data = 1) :
    pyReplace (video_dir ++ "/" ++ filename) filename nf =
        video_dir ++ "/" ++ nf ∧
      pyReplace ((video_dir ++ "/" ++ filename) ++ ".bin") filename nf =
        (video_dir ++ "/" ++ nf) ++ ".bin" := by
  have hcount2 : countSubstr ((video_dir.data ++ ['/']) ++ filename.data)
      filename.data = 1 := hcount
  constructor
  · apply String.ext
    show pyReplaceL ((video_dir.data ++ ['/']) ++ filename.data)
      filename.data nf.data = (video_dir.data ++ ['/']) ++ nf.data
    have h := pyReplaceL_single_cor (video_dir.data ++ ['/']) nf.data []
      hG (by simp) hcount2
    simpa using h
  · apply String.ext
    show pyReplaceL (((video_dir.data ++ ['/']) ++ filename.data) ++ ".bin".data)
      filename.data nf.data = ((video_dir.data ++ ['/']) ++ nf.data) ++ ".bin".data
    have h := pyReplaceL_single_cor (video_dir.data ++ ['/']) nf.data ".bin".data
      hG (by decide) hcount2
    simpa [List.append_assoc] using h

/-! ## Claim theorems -/

/-- C1: every extraction or conversion step (telemetry binary, GPX, JSON,
CSV, KML) invokes its external tool if and only if the `reprocess` flag is
set or the step's target output file does not already exist; when skipped it
performs zero subprocess invocations and raises nothing (treated as
success); when the flag is set the invocation list has exactly one command.
Each step is characterized by its invocation list (length 1 exactly when the
condition holds, else empty) and its propagated error (`none` when
skipped). -/
theorem claim_C1_skip_policy (tools : ToolPaths) (streams : List StreamDescriptor)
    (st : GoProState) (fs : List String) (world : List String → Int) :
    (extract_telemetry streams st fs world =
      (if st.reprocess || !isfile fs st.telemetry_path then
        [ffmpeg_command st.video_path (get_stream_index streams "gpmd")
          st.telemetry_path] else [],
       if st.reprocess || !isfile fs st.telemetry_path then
        call_subprocess world (ffmpeg_command st.video_path
          (get_stream_index streams "gpmd") st.telemetry_path) else none)) ∧
    (extract_gpx tools st fs world =
      (if st.reprocess || !isfile fs (pyJoin st.video_dir (st.filename ++ ".gpx")) then
        [[tools.gopro2gpx_path, "-i", st.telemetry_path, "-o",
          pyJoin st.video_dir (st.filename ++ ".gpx")]] else [],
       if st.reprocess || !isfile fs (pyJoin st.video_dir (st.filename ++ ".gpx")) then
        call_subprocess world [tools.gopro2gpx_path, "-i", st.telemetry_path, "-o",
          pyJoin st.video_dir (st.filename ++ ".gpx")] else none)) ∧
    (extract_json tools st fs world =
      (if st.reprocess || !isfile fs (pyJoin st.video_dir (st.filename ++ ".json")) then
        [[tools.gopro2json_path, "-i", st.telemetry_path, "-o",
          pyJoin st.video_dir (st.filename ++ ".json")]] else [],
       if st.reprocess || !isfile fs (pyJoin st.video_dir (st.filename ++ ".json")) then
        call_subprocess world [tools.gopro2json_path, "-i", st.telemetry_path, "-o",
          pyJoin st.video_dir (st.filename ++ ".json")] else none)) ∧
    (extract_csv tools st fs world =
      (if st.reprocess || !isfile fs (pyJoin st.video_dir (st.filename ++ ".csv")) then
        [[tools.gopro2csv_path, "-i", st.telemetry_path, "-o",
          pyJoin st.video_dir (st.filename ++ ".csv")]] else [],
       if st.reprocess || !isfile fs (pyJoin st.video_dir (st.filename ++ ".csv")) then
        call_subprocess world [tools.gopro2csv_path, "-i", st.telemetry_path, "-o",
          pyJoin st.video_dir (st.filename ++ ".csv")] else none)) ∧
    (extract_kml tools st fs world =
      (if st.reprocess || !isfile fs (pyJoin st.video_dir (st.filename ++ ".kml")) then
        [[tools.gps2kml_path, "-i", st.telemetry_path, "-o",
          pyJoin st.video_dir (st.filename ++ ".kml")]] else [],
       if st.reprocess || !isfile fs (pyJoin st.video_dir (st.filename ++ ".kml")) then
        call_subprocess world [tools.gps2kml_path, "-i", st.telemetry_path, "-o",
          pyJoin st.video_dir (st.filename ++ ".kml")] else none)) := by
  refine ⟨?_, ?_, ?_, ?_, ?_⟩
  · unfold extract_telemetry
    by_cases h : (st.reprocess || !isfile fs st.telemetry_path) = true
    · simp only [h, if_true]
    · simp only [Bool.not_eq_true] at h
      simp only [h, Bool.false_eq_true, if_false]
  · unfold extract_gpx
    by_cases h : (st.reprocess ||
        !isfile fs (pyJoin st.video_dir (st.filename ++ ".gpx"))) = true
    · simp only [h, if_true]
    · simp only [Bool.not_eq_true] at h
      simp only [h, Bool.false_eq_true, if_false]
  · unfold extract_json
    by_cases h : (st.reprocess ||
        !isfile fs (pyJoin st.video_dir (st.filename ++ ".json"))) = true
    · simp only [h, if_true]
    · simp only [Bool.not_eq_true] at h
      simp only [h, Bool.false_eq_true, if_false]
  · unfold extract_csv
    by_cases h : (st.reprocess ||
        !isfile fs (pyJoin st.video_dir (st.filename ++ ".csv"))) = true
    · simp only [h, if_true]
    · simp only [Bool.not_eq_true] at h
      simp only [h, Bool.false_eq_true, if_false]
  · unfold extract_kml
    by_cases h : (st.reprocess ||
        !isfile fs (pyJoin st.video_dir (st.filename ++ ".kml"))) = true
    · simp only [h, if_true]
    · simp only [Bool.not_eq_true] at h
      simp only [h, Bool.false_eq_true, if_false]

/-- C9: the conversion pipeline runs the four converters in the fixed order
GPX, JSON, CSV, KML; the first step whose subprocess exits non-zero raises a
`CalledProcessError` carrying the joined command and the exit code, which is
not caught by the pipeline: no converter after the failing one is invoked
(its commands do not appear in the invocation list). -/
theorem claim_C9_pipeline_order_abort (tools : ToolPaths) (st : GoProState)
    (fs : List String) (world : List String → Int) :
    (extract_all tools st fs world =
      (let g := extract_gpx tools st fs world
       let j := extract_json tools st fs world
       let c := extract_csv tools st fs world
       let k := extract_kml tools st fs world
       if g.2.isSome then (g.1, g.2)
       else if j.2.isSome then (g.1 ++ j.1, j.2)
       else if c.2.isSome then (g.1 ++ j.1 ++ c.1, c.2)
       else (g.1 ++ j.1 ++ c.1 ++ k.1, k.2))) ∧
    (∀ command, call_subprocess world command =
      if world command = 0 then none
      else some ⟨world command, String.intercalate " " command⟩) := by
  constructor
  · unfold extract_all
    cases hg : (extract_gpx tools st fs world).2 with
    | some e => simp [hg]
    | none =>
      cases hj : (extract_json tools st fs world).2 with
      | some e => simp [hg, hj]
      | none =>
        cases hc : (extract_csv tools st fs world).2 with
        | some e => simp [hg, hj, hc]
        | none =>
          cases hk : (extract_kml tools st fs world).2 with
          | some e => simp [hg, hj, hc, hk]
          | none => simp [hg, hj, hc, hk]
  · intro command
    rfl

/-- Streams of a container with no `gpmd` telemetry stream (only video and
audio), used to refute C3. -/
def cxStreamsNoGpmd : List StreamDescriptor := [⟨0, "avc1"⟩, ⟨1, "mp4a"⟩]

/-- A state mid-run for the video `/videos/GH010042.MP4` with forced
reprocessing. -/
def scenarioState : GoProState :=
  ⟨true, "/videos", "GH010042.MP4", "/videos/GH010042.MP4",
   "/videos/GH010042.MP4.bin"⟩

/-- C3 counterexample: with a stream list containing no `gpmd` codec tag and
the step not skipped, the telemetry extractor does **not** fail before
demuxing — it invokes the external demux command (with the nonsensical
stream specifier `0:None`, since `get_stream_index` silently returned
`None`).  The claim requires zero demux invocations and a
`StreamNotFoundError`; the source defines no such error and the invocation
list below is non-empty. -/
theorem claim_C3_counterexample :
    (cxStreamsNoGpmd.all fun s => s.codec_tag_string != "gpmd") = true ∧
    (extract_telemetry cxStreamsNoGpmd scenarioState [] fun _ => 0).1 =
      [["ffmpeg", "-v", "quiet", "-y", "-i", "/videos/GH010042.MP4", "-codec",
        "copy", "-map", "0:None", "-f", "rawvideo", "/videos/GH010042.MP4.bin"]] := by
  decide

/-- C3 amended: when no stream's codec tag equals `"gpmd"` and the step is
not skipped, `get_stream_index` returns `None` (no `StreamNotFoundError` is
raised — the source has no such error type) and the demux command **is**
constructed and invoked, with the stream specifier rendered as `"0:None"`. -/
theorem claim_C3_amended (streams : List StreamDescriptor) (st : GoProState)
    (fs : List String) (world : List String → Int)
    (hno : (streams.all fun s => s.codec_tag_string != "gpmd") = true)
    (hrun : st.reprocess = true) :
    get_stream_index streams "gpmd" = none ∧
    (extract_telemetry streams st fs world).1 =
      [ffmpeg_command st.video_path none st.telemetry_path] ∧
    "0:None" ∈ ffmpeg_command st.video_path none st.telemetry_path := by
  have hidx : get_stream_index streams "gpmd" = none := by
    unfold get_stream_index
    rw [List.find?_eq_none.mpr]
    · rfl
    · intro s hs
      have := List.all_eq_true.mp hno s hs
      simpa using this
  refine ⟨hidx, ?_, ?_⟩
  · unfold extract_telemetry
    rw [hrun]
    simp only [Bool.true_or, if_true, hidx]
  · unfold ffmpeg_command pyStrOptInt
    simp

/-- Witness for the amended C3 theorem at the concrete no-`gpmd` container. -/
theorem claim_C3_amended_witness :
    get_stream_index cxStreamsNoGpmd "gpmd" = none ∧
    (extract_telemetry cxStreamsNoGpmd scenarioState [] fun _ => 0).1 =
      [ffmpeg_command "/videos/GH010042.MP4" none "/videos/GH010042.MP4.bin"] ∧
    "0:None" ∈ ffmpeg_command "/videos/GH010042.MP4" none "/videos/GH010042.MP4.bin" :=
  claim_C3_amended cxStreamsNoGpmd scenarioState [] (fun _ => 0) (by decide) (by decide)

/-- C5: both normalization steps are no-ops on already-normalized filenames.
A filename in which one of the nine serial patterns matches is never renamed
by serial prefixing, and a filename already containing the formatted
timestamp is never renamed by timestamp suffixing; hence a second run on the
resulting state performs no rename either. -/
theorem claim_C5_idempotent :
    (∀ (st : GoProState) (fdsc_bytes : List Nat) (renameOk : Bool) (s : String),
      filename_contains_serial st.filename = some s →
      process_prepend_filename_with_serial st fdsc_bytes renameOk =
          ⟨st, none, false⟩ ∧
        process_prepend_filename_with_serial
            (process_prepend_filename_with_serial st fdsc_bytes renameOk).state
            fdsc_bytes renameOk = ⟨st, none, false⟩) ∧
    (∀ (st : GoProState) (tag : String) (renameOk : Bool) (dt : DateTime),
      parseISO tag = some dt →
      pyIn (strftimeTs dt) st.filename = true →
      append_filename_with_timestamp st tag renameOk = ⟨st, none, false⟩ ∧
        append_filename_with_timestamp
            (append_filename_with_timestamp st tag renameOk).state tag renameOk =
          ⟨st, none, false⟩) := by
  constructor
  · intro st fdsc_bytes renameOk s hpat
    have h1 : process_prepend_filename_with_serial st fdsc_bytes renameOk =
        ⟨st, none, false⟩ := by
      unfold process_prepend_filename_with_serial
      rw [hpat]
    refine ⟨h1, ?_⟩
    rw [h1]
    exact h1
  · intro st tag renameOk dt hparse hts
    have h1 : append_filename_with_timestamp st tag renameOk = ⟨st, none, false⟩ := by
      unfold append_filename_with_timestamp
      rw [hparse]
      simp only [hts, if_true]
    refine ⟨h1, ?_⟩
    rw [h1]
    exact h1

/-- An already serial-prefixed video, for the C5 witness. -/
def serialPrefixedState : GoProState :=
  ⟨false, "/v", "C3221234567890_GH010042.MP4", "/v/C3221234567890_GH010042.MP4",
   "/v/C3221234567890_GH010042.MP4.bin"⟩

/-- An already timestamp-suffixed video, for the C5 witness. -/
def timestampedState : GoProState :=
  ⟨false, "/v", "GH010042_2021-06-01T140530.MP4",
   "/v/GH010042_2021-06-01T140530.MP4",
   "/v/GH010042_2021-06-01T140530.MP4.bin"⟩

/-- Witness for C5 at concrete already-normalized filenames. -/
theorem claim_C5_idempotent_witness :
    process_prepend_filename_with_serial serialPrefixedState [] true =
        ⟨serialPrefixedState, none, false⟩ ∧
      append_filename_with_timestamp timestampedState "2021-06-01T14:05:30Z" true =
        ⟨timestampedState, none, false⟩ :=
  ⟨(claim_C5_idempotent.1 serialPrefixedState [] true "C3221234567890"
      (by decide)).1,
   (claim_C5_idempotent.2 timestampedState "2021-06-01T14:05:30Z" true
      ⟨2021, 6, 1, 14, 5, 30⟩ (by decide) (by decide)).1⟩

/-- The device-info stream bytes of the C7 spec scenario: an 87-byte header
followed by the ASCII serial `C3221234567890`. -/
def fdscScenarioBytes : List Nat :=
  List.replicate 87 0 ++ "C3221234567890".data.map Char.toNat

/-- A GoPro container's stream list with both the telemetry (`gpmd`) and
device-info (`fdsc`) streams. -/
def scenarioStreams : List StreamDescriptor :=
  [⟨0, "avc1"⟩, ⟨1, "mp4a"⟩, ⟨2, "gpmd"⟩, ⟨3, "fdsc"⟩]

/-- A video whose filename contains a serial pattern in the middle (not as a
prefix), for the C6 counterexample. -/
def serialMidState : GoProState :=
  ⟨false, "/v", "GH010042_C3221234567890.MP4", "/v/GH010042_C3221234567890.MP4",
   "/v/GH010042_C3221234567890.MP4.bin"⟩

/-- C6 counterexample: the filename `GH010042_C3221234567890.MP4` yields a
serial from the pattern match and does **not** start with that serial, yet
the step performs no rename at all (the source only renames when *no*
pattern matched), contradicting the claim that such a run renames to
`{serial}_{originalFilename}`. -/
theorem claim_C6_counterexample :
    filename_contains_serial "GH010042_C3221234567890.MP4" =
        some "C3221234567890" ∧
      ("C3221234567890".data.isPrefixOf
        "GH010042_C3221234567890.MP4".data) = false ∧
      process_prepend_filename_with_serial serialMidState fdscScenarioBytes true =
        ⟨serialMidState, none, false⟩ := by
  decide

/-- C6 amended: the rename happens exactly when **no** serial pattern
matches the filename; the serial is then retrieved from the device-info
stream, the new filename is `{serial}_{originalFilename}`, the video and
telemetry paths are updated by substring replacement, the performed
filesystem rename is recorded, and a failing `os.rename` raises (no silent
fallback).  A pattern-matched serial never triggers a rename, even when the
filename does not start with it. -/
theorem claim_C6_amended (st : GoProState) (fdsc_bytes : List Nat)
    (serial : String)
    (hpat : filename_contains_serial st.filename = none)
    (hser : retrieve_camera_serial fdsc_bytes = some serial) :
    (process_prepend_filename_with_serial st fdsc_bytes true).state.filename =
        serial ++ "_" ++ st.filename ∧
      (process_prepend_filename_with_serial st fdsc_bytes true).renamed =
        some (st.video_path,
          pyReplace st.video_path st.filename (serial ++ "_" ++ st.filename)) ∧
      (process_prepend_filename_with_serial st fdsc_bytes true).error = false ∧
      (process_prepend_filename_with_serial st fdsc_bytes false).error = true := by
  rw [prepend_rename_eq st fdsc_bytes serial true hpat hser,
    prepend_rename_eq st fdsc_bytes serial false hpat hser]
  exact ⟨rfl, rfl, rfl, rfl⟩

/-- Witness for the amended C6 theorem at the spec's concrete scenario. -/
theorem claim_C6_amended_witness :
    (process_prepend_filename_with_serial scenarioState fdscScenarioBytes
          true).state.filename =
        "C3221234567890" ++ "_" ++ scenarioState.filename ∧
      (process_prepend_filename_with_serial scenarioState fdscScenarioBytes
          true).renamed =
        some (scenarioState.video_path,
          pyReplace scenarioState.video_path scenarioState.filename
            ("C3221234567890" ++ "_" ++ scenarioState.filename)) ∧
      (process_prepend_filename_with_serial scenarioState fdscScenarioBytes
          true).error = false ∧
      (process_prepend_filename_with_serial scenarioState fdscScenarioBytes
          false).error = true :=
  claim_C6_amended scenarioState fdscScenarioBytes "C3221234567890"
    (by decide) (by decide)

/-- C7: the serial-retrieval path demuxes the device-info (`fdsc`) stream to
the temporary file `{video_path}_fdsc.bin`, skips the fixed 87-byte header,
reads the next 14 bytes, decodes them as text and deletes the temporary
file; on the spec scenario (`GH010042.MP4`, device-info bytes 87..101
decoding to `C3221234567890`) the file is renamed to
`C3221234567890_GH010042.MP4`. -/
theorem claim_C7_retrieve_serial :
    (∀ (video_path : String) (streams : List StreamDescriptor)
        (fdsc_bytes : List Nat),
      retrieve_camera_serial_trace video_path streams fdsc_bytes =
        { temp_path := video_path ++ "_fdsc.bin"
          command := ffmpeg_command video_path (get_stream_index streams "fdsc")
            (video_path ++ "_fdsc.bin")
          serial := pyDecodeUtf8 ((fdsc_bytes.drop 87).take 14)
          temp_deleted := (pyDecodeUtf8 ((fdsc_bytes.drop 87).take 14)).isSome }) ∧
    filename_contains_serial "GH010042.MP4" = none ∧
    retrieve_camera_serial fdscScenarioBytes = some "C3221234567890" ∧
    (retrieve_camera_serial_trace "/videos/GH010042.MP4" scenarioStreams
        fdscScenarioBytes).temp_deleted = true ∧
    (retrieve_camera_serial_trace "/videos/GH010042.MP4" scenarioStreams
        fdscScenarioBytes).temp_path = "/videos/GH010042.MP4_fdsc.bin" ∧
    (process_prepend_filename_with_serial scenarioState fdscScenarioBytes
        true).state.filename = "C3221234567890_GH010042.MP4" ∧
    (process_prepend_filename_with_serial scenarioState fdscScenarioBytes
        true).renamed =
      some ("/videos/GH010042.MP4", "/videos/C3221234567890_GH010042.MP4") := by
  refine ⟨fun video_path streams fdsc_bytes => rfl, ?_, ?_, ?_, ?_, ?_, ?_⟩ <;> decide

/-- A video with a non-`.MP4` extension, for the C8 counterexample. -/
def movState : GoProState :=
  ⟨false, "/v", "GH010042.MOV", "/v/GH010042.MOV", "/v/GH010042.MOV.bin"⟩

/-- C8 counterexample: the claim promises timestamp insertion immediately
before the extension *for any extension*, so `GH010042.MOV` with creation
time `2021-06-01T14:05:30Z` should become `GH010042_2021-06-01T140530.MOV`;
the source only rewrites the literal `.MP4`, so the filename is left
entirely unchanged (the step still reaches its rename with an identical
name). -/
theorem claim_C8_counterexample :
    pyIn "2021-06-01T140530" "GH010042.MOV" = false ∧
      (append_filename_with_timestamp movState "2021-06-01T14:05:30Z"
          true).state.filename = "GH010042.MOV" ∧
      "GH010042.MOV" ≠ "GH010042_2021-06-01T140530.MOV" := by
  decide

/-- C8 amended: the creation timestamp is parsed and formatted as
`YYYY-MM-DDTHHMMSS`; when that string is not yet in the filename, the new
filename is the old one with every occurrence of the literal `.MP4`
replaced by `_{timestamp}.MP4` — i.e. the insertion before the extension
only happens for `.MP4` filenames, others keep their name.  On the spec
scenario (`GH010042.MP4`, `creation_time = "2021-06-01T14:05:30Z"`) the
result is `GH010042_2021-06-01T140530.MP4`. -/
theorem claim_C8_amended (st : GoProState) (tag : String) (dt : DateTime)
    (renameOk : Bool)
    (hparse : parseISO tag = some dt)
    (hts : pyIn (strftimeTs dt) st.filename = false) :
    (append_filename_with_timestamp st tag renameOk).state.filename =
        pyReplace st.filename ".MP4" ("_" ++ strftimeTs dt ++ ".MP4") ∧
      parseISO "2021-06-01T14:05:30Z" = some ⟨2021, 6, 1, 14, 5, 30⟩ ∧
      strftimeTs ⟨2021, 6, 1, 14, 5, 30⟩ = "2021-06-01T140530" ∧
      (append_filename_with_timestamp scenarioState "2021-06-01T14:05:30Z"
          true).state.filename = "GH010042_2021-06-01T140530.MP4" := by
  refine ⟨?_, by decide, by decide, by decide⟩
  rw [append_rename_eq st tag dt renameOk hparse hts]
  cases renameOk <;> rfl

/-- Witness for the amended C8 theorem at the `.MOV` input. -/
theorem claim_C8_amended_witness :
    (append_filename_with_timestamp movState "2021-06-01T14:05:30Z"
          true).state.filename =
        pyReplace movState.filename ".MP4"
          ("_" ++ strftimeTs ⟨2021, 6, 1, 14, 5, 30⟩ ++ ".MP4") ∧
      parseISO "2021-06-01T14:05:30Z" = some ⟨2021, 6, 1, 14, 5, 30⟩ ∧
      strftimeTs ⟨2021, 6, 1, 14, 5, 30⟩ = "2021-06-01T140530" ∧
      (append_filename_with_timestamp scenarioState "2021-06-01T14:05:30Z"
          true).state.filename = "GH010042_2021-06-01T140530.MP4" :=
  claim_C8_amended movState "2021-06-01T14:05:30Z" ⟨2021, 6, 1, 14, 5, 30⟩ true
    (by decide) (by decide)

/-- C2 counterexample: on the `GH010042.MP4` run whose `os.rename` raises,
the step propagates the error and the disk keeps the old name (no rename
was performed), yet the in-memory `filename` field has already been updated
to `C3221234567890_GH010042.MP4` — the in-memory state and the filesystem
are out of sync, contradicting the claimed atomicity. -/
theorem claim_C2_counterexample :
    (process_prepend_filename_with_serial scenarioState fdscScenarioBytes
          false).error = true ∧
      (process_prepend_filename_with_serial scenarioState fdscScenarioBytes
          false).renamed = none ∧
      (process_prepend_filename_with_serial scenarioState fdscScenarioBytes
          false).state.filename = "C3221234567890_GH010042.MP4" ∧
      scenarioState.filename = "GH010042.MP4" := by
  decide

/-- C2 amended: when the filesystem rename raises, the exception propagates,
no rename is performed on disk, and the `video_path` and `telemetry_path`
fields keep their old values — but the `filename` field has already been
assigned the new name (the source updates it before calling `os.rename`),
so full state-unchanged atomicity holds only for the two path fields. -/
theorem claim_C2_amended :
    (∀ (st : GoProState) (fdsc_bytes : List Nat) (serial : String),
      filename_contains_serial st.filename = none →
      retrieve_camera_serial fdsc_bytes = some serial →
      (process_prepend_filename_with_serial st fdsc_bytes false).error = true ∧
        (process_prepend_filename_with_serial st fdsc_bytes false).renamed =
          none ∧
        (process_prepend_filename_with_serial st fdsc_bytes
            false).state.video_path = st.video_path ∧
        (process_prepend_filename_with_serial st fdsc_bytes
            false).state.telemetry_path = st.telemetry_path ∧
        (process_prepend_filename_with_serial st fdsc_bytes
            false).state.filename = serial ++ "_" ++ st.filename) ∧
    (∀ (st : GoProState) (tag : String) (dt : DateTime),
      parseISO tag = some dt →
      pyIn (strftimeTs dt) st.filename = false →
      (append_filename_with_timestamp st tag false).error = true ∧
        (append_filename_with_timestamp st tag false).renamed = none ∧
        (append_filename_with_timestamp st tag false).state.video_path =
          st.video_path ∧
        (append_filename_with_timestamp st tag false).state.telemetry_path =
          st.telemetry_path ∧
        (append_filename_with_timestamp st tag false).state.filename =
          pyReplace st.filename ".MP4" ("_" ++ strftimeTs dt ++ ".MP4")) := by
  constructor
  · intro st fdsc_bytes serial hpat hser
    rw [prepend_rename_eq st fdsc_bytes serial false hpat hser]
    exact ⟨rfl, rfl, rfl, rfl, rfl⟩
  · intro st tag dt hparse hts
    rw [append_rename_eq st tag dt false hparse hts]
    exact ⟨rfl, rfl, rfl, rfl, rfl⟩

/-- Witness for the amended C2 theorem at the concrete failing-rename run. -/
theorem claim_C2_amended_witness :
    (process_prepend_filename_with_serial scenarioState fdscScenarioBytes
          false).error = true ∧
      (process_prepend_filename_with_serial scenarioState fdscScenarioBytes
          false).renamed = none ∧
      (process_prepend_filename_with_serial scenarioState fdscScenarioBytes
          false).state.video_path = scenarioState.video_path ∧
      (process_prepend_filename_with_serial scenarioState fdscScenarioBytes
          false).state.telemetry_path = scenarioState.telemetry_path ∧
      (process_prepend_filename_with_serial scenarioState fdscScenarioBytes
          false).state.filename = "C3221234567890" ++ "_" ++ scenarioState.filename :=
  claim_C2_amended.1 scenarioState fdscScenarioBytes "C3221234567890"
    (by decide) (by decide)

/-- C10: both rename steps compute the new video and telemetry paths by
Python `str.replace` of the old filename inside the whole old path string
(all occurrences), and under the single-occurrence precondition — the
filename occurs exactly once as a substring of the absolute video path,
which has the canonical `dir/filename` shape with the telemetry path
`video_path + ".bin"`; processed filenames always contain `G` (the
`get_basename` check guarantees a `G...` recording id), which rules out
occurrences overlapping the appended `".bin"` — the post-rename video path
is the directory joined with the new filename and the telemetry path is
that path plus `".bin"`. -/
theorem claim_C10_replacement_correspondence (st : GoProState)
    (fdsc_bytes : List Nat) (serial tag : String) (dt : DateTime)
    (hG : 'G' ∈ st.filename.data)
    (hshape : st.video_path = st.video_dir ++ "/" ++ st.filename)
    (hcount : countSubstr st.video_path.data st.filename.data = 1)
    (htel : st.telemetry_path = st.video_path ++ ".bin")
    (hpat : filename_contains_serial st.filename = none)
    (hser : retrieve_camera_serial fdsc_bytes = some serial)
    (hparse : parseISO tag = some dt)
    (hts : pyIn (strftimeTs dt) st.filename = false) :
    ((process_prepend_filename_with_serial st fdsc_bytes true).state.video_path =
        pyReplace st.video_path st.filename (serial ++ "_" ++ st.filename) ∧
      (process_prepend_filename_with_serial st fdsc_bytes
          true).state.telemetry_path =
        pyReplace st.telemetry_path st.filename (serial ++ "_" ++ st.filename) ∧
      (process_prepend_filename_with_serial st fdsc_bytes true).state.video_path =
        st.video_dir ++ "/" ++
          (process_prepend_filename_with_serial st fdsc_bytes
            true).state.filename ∧
      (process_prepend_filename_with_serial st fdsc_bytes
          true).state.telemetry_path =
        (process_prepend_filename_with_serial st fdsc_bytes
          true).state.video_path ++ ".bin") ∧
    ((append_filename_with_timestamp st tag true).state.video_path =
        pyReplace st.video_path st.filename
          (pyReplace st.filename ".MP4" ("_" ++ strftimeTs dt ++ ".MP4")) ∧
      (append_filename_with_timestamp st tag true).state.telemetry_path =
        pyReplace st.telemetry_path st.filename
          (pyReplace st.filename ".MP4" ("_" ++ strftimeTs dt ++ ".MP4")) ∧
      (append_filename_with_timestamp st tag true).state.video_path =
        st.video_dir ++ "/" ++
          (append_filename_with_timestamp st tag true).state.filename ∧
      (append_filename_with_timestamp st tag true).state.telemetry_path =
        (append_filename_with_timestamp st tag true).state.video_path ++
          ".bin") := by
  have hc : countSubstr (st.video_dir ++ "/" ++ st.filename).data
      st.filename.data = 1 := by
    rw [← hshape]; exact hcount
  obtain ⟨hv1, ht1⟩ := rename_path_update st.video_dir st.filename
    (serial ++ "_" ++ st.filename) hG hc
  obtain ⟨hv2, ht2⟩ := rename_path_update st.video_dir st.filename
    (pyReplace st.filename ".MP4" ("_" ++ strftimeTs dt ++ ".MP4")) hG hc
  rw [prepend_rename_eq st fdsc_bytes serial true hpat hser,
    append_rename_eq st tag dt true hparse hts]
  refine ⟨⟨rfl, rfl, ?_, ?_⟩, rfl, rfl, ?_, ?_⟩
  · show pyReplace st.video_path st.filename (serial ++ "_" ++ st.filename) =
      st.video_dir ++ "/" ++ (serial ++ "_" ++ st.filename)
    rw [hshape]
    exact hv1
  · show pyReplace st.telemetry_path st.filename (serial ++ "_" ++ st.filename) =
      pyReplace st.video_path st.filename (serial ++ "_" ++ st.filename) ++ ".bin"
    rw [htel, hshape, ht1, hv1]
  · show pyReplace st.video_path st.filename
        (pyReplace st.filename ".MP4" ("_" ++ strftimeTs dt ++ ".MP4")) =
      st.video_dir ++ "/" ++
        pyReplace st.filename ".MP4" ("_" ++ strftimeTs dt ++ ".MP4")
    rw [hshape]
    exact hv2
  · show pyReplace st.telemetry_path st.filename
        (pyReplace st.filename ".MP4" ("_" ++ strftimeTs dt ++ ".MP4")) =
      pyReplace st.video_path st.filename
        (pyReplace st.filename ".MP4" ("_" ++ strftimeTs dt ++ ".MP4")) ++ ".bin"
    rw [htel, hshape, ht2, hv2]

/-- Witness for C10 at the concrete run `/videos/GH010042.MP4`. -/
theorem claim_C10_witness :
    ((process_prepend_filename_with_serial scenarioState fdscScenarioBytes
          true).state.video_path =
        pyReplace scenarioState.video_path scenarioState.filename
          ("C3221234567890" ++ "_" ++ scenarioState.filename) ∧
      (process_prepend_filename_with_serial scenarioState fdscScenarioBytes
          true).state.telemetry_path =
        pyReplace scenarioState.telemetry_path scenarioState.filename
          ("C3221234567890" ++ "_" ++ scenarioState.filename) ∧
      (process_prepend_filename_with_serial scenarioState fdscScenarioBytes
          true).state.video_path =
        scenarioState.video_dir ++ "/" ++
          (process_prepend_filename_with_serial scenarioState fdscScenarioBytes
            true).state.filename ∧
      (process_prepend_filename_with_serial scenarioState fdscScenarioBytes
          true).state.telemetry_path =
        (process_prepend_filename_with_serial scenarioState fdscScenarioBytes
          true).state.video_path ++ ".bin") ∧
    ((append_filename_with_timestamp scenarioState "2021-06-01T14:05:30Z"
          true).state.video_path =
        pyReplace scenarioState.video_path scenarioState.filename
          (pyReplace scenarioState.filename ".MP4"
            ("_" ++ strftimeTs ⟨2021, 6, 1, 14, 5, 30⟩ ++ ".MP4")) ∧
      (append_filename_with_timestamp scenarioState "2021-06-01T14:05:30Z"
          true).state.telemetry_path =
        pyReplace scenarioState.telemetry_path scenarioState.filename
          (pyReplace scenarioState.filename ".MP4"
            ("_" ++ strftimeTs ⟨2021, 6, 1, 14, 5, 30⟩ ++ ".MP4")) ∧
      (append_filename_with_timestamp scenarioState "2021-06-01T14:05:30Z"
          true).state.video_path =
        scenarioState.video_dir ++ "/" ++
          (append_filename_with_timestamp scenarioState "2021-06-01T14:05:30Z"
            true).state.filename ∧
      (append_filename_with_timestamp scenarioState "2021-06-01T14:05:30Z"
          true).state.telemetry_path =
        (append_filename_with_timestamp scenarioState "2021-06-01T14:05:30Z"
          true).state.video_path ++ ".bin") :=
  claim_C10_replacement_correspondence scenarioState fdscScenarioBytes
    "C3221234567890" "2021-06-01T14:05:30Z" ⟨2021, 6, 1, 14, 5, 30⟩
    (by decide) (by decide) (by decide) (by decide) (by decide) (by decide)
    (by decide) (by decide)

/-- C4 counterexample: two runs of the program (one on
`/GH010042.MP4/C3221234567890_GH010042.MP4`, whose filename already carries
a serial, one on `/GH010042.MP4/GH010042.MP4`, which gets serial-prefixed
with a successful rename) end with the **same** `(video_dir, filename)` pair
but **different** telemetry paths: the `.bin` path is therefore not a
deterministic function of the current filename and its directory, because
`str.replace` also rewrote the filename occurrence inside the directory
component of the second run's paths. -/
theorem claim_C4_counterexample :
    (process_prepend_filename_with_serial
        (initPaths true "/GH010042.MP4/C3221234567890_GH010042.MP4")
        fdscScenarioBytes true).state.video_dir =
      (process_prepend_filename_with_serial
        (initPaths true "/GH010042.MP4/GH010042.MP4")
        fdscScenarioBytes true).state.video_dir ∧
    (process_prepend_filename_with_serial
        (initPaths true "/GH010042.MP4/C3221234567890_GH010042.MP4")
        fdscScenarioBytes true).state.filename =
      (process_prepend_filename_with_serial
        (initPaths true "/GH010042.MP4/GH010042.MP4")
        fdscScenarioBytes true).state.filename ∧
    (process_prepend_filename_with_serial
        (initPaths true "/GH010042.MP4/C3221234567890_GH010042.MP4")
        fdscScenarioBytes true).state.telemetry_path ≠
      (process_prepend_filename_with_serial
        (initPaths true "/GH010042.MP4/GH010042.MP4")
        fdscScenarioBytes true).state.telemetry_path := by
  decide

theorem pyJoin_eq (a b : String) (ha1 : a.data ≠ [])
    (ha2 : a.data.getLast? ≠ some '/') (hb : b.data.take 1 ≠ ['/']) :
    pyJoin a b = a ++ "/" ++ b := by
  unfold pyJoin
  rw [if_neg hb, if_neg (by simpa using ha1), if_neg ha2]

theorem take_one_serial_append (serial f ext : String)
    (hhead : serial.data.take 1 ≠ ['/']) :
    (((serial ++ "_" ++ f) ++ ext)).data.take 1 ≠ ['/'] := by
  have hdata : (((serial ++ "_" ++ f) ++ ext)).data =
      ((serial.data ++ ['_']) ++ f.data) ++ ext.data := rfl
  rw [hdata]
  cases hs : serial.data with
  | nil => simp
  | cons c cs =>
    simp only [List.cons_append, List.take_succ_cons, List.take_zero]
    intro he
    apply hhead
    rw [hs]
    simpa using he

/-- C4 amended: the invariant holds under the single-occurrence
precondition (C10's precondition, with the reachability fact that the
filename contains `G` and a well-formed directory): after a successful
serial-prefix rename the directory field is unchanged, the new filename is
`{serial}_{originalFilename}`, the video and telemetry paths are the
directory joined with the new filename (plus `".bin"`), and the four
converter output paths computed afterwards are the directory joined with
the new filename plus their extensions — all derived paths are functions of
`(video_dir, new filename)` and none uses the pre-rename filename in place
of the new one.  Without the single-occurrence precondition the claim fails
(see the counterexample). -/
theorem claim_C4_amended (st : GoProState) (fdsc_bytes : List Nat)
    (serial : String)
    (hG : 'G' ∈ st.filename.data)
    (hshape : st.video_path = st.video_dir ++ "/" ++ st.filename)
    (hcount : countSubstr st.video_path.data st.filename.data = 1)
    (htel : st.telemetry_path = st.video_path ++ ".bin")
    (hpat : filename_contains_serial st.filename = none)
    (hser : retrieve_camera_serial fdsc_bytes = some serial)
    (hdir1 : st.video_dir.data ≠ [])
    (hdir2 : st.video_dir.data.getLast? ≠ some '/')
    (hhead : serial.data.take 1 ≠ ['/']) :
    (process_prepend_filename_with_serial st fdsc_bytes true).state.video_dir =
        st.video_dir ∧
      (process_prepend_filename_with_serial st fdsc_bytes true).state.filename =
        serial ++ "_" ++ st.filename ∧
      (process_prepend_filename_with_serial st fdsc_bytes true).state.video_path =
        st.video_dir ++ "/" ++ (serial ++ "_" ++ st.filename) ∧
      (process_prepend_filename_with_serial st fdsc_bytes
          true).state.telemetry_path =
        (st.video_dir ++ "/" ++ (serial ++ "_" ++ st.filename)) ++ ".bin" ∧
      pyJoin st.video_dir ((serial ++ "_" ++ st.filename) ++ ".gpx") =
        st.video_dir ++ "/" ++ ((serial ++ "_" ++ st.filename) ++ ".gpx") ∧
      pyJoin st.video_dir ((serial ++ "_" ++ st.filename) ++ ".json") =
        st.video_dir ++ "/" ++ ((serial ++ "_" ++ st.filename) ++ ".json") ∧
      pyJoin st.video_dir ((serial ++ "_" ++ st.filename) ++ ".csv") =
        st.video_dir ++ "/" ++ ((serial ++ "_" ++ st.filename) ++ ".csv") ∧
      pyJoin st.video_dir ((serial ++ "_" ++ st.filename) ++ ".kml") =
        st.video_dir ++ "/" ++ ((serial ++ "_" ++ st.filename) ++ ".kml") := by
  have hc : countSubstr (st.video_dir ++ "/" ++ st.filename).data
      st.filename.data = 1 := by
    rw [← hshape]; exact hcount
  obtain ⟨hv1, ht1⟩ := rename_path_update st.video_dir st.filename
    (serial ++ "_" ++ st.filename) hG hc
  rw [prepend_rename_eq st fdsc_bytes serial true hpat hser]
  refine ⟨rfl, rfl, ?_, ?_, ?_, ?_, ?_, ?_⟩
  · show pyReplace st.video_path st.filename (serial ++ "_" ++ st.filename) =
      st.video_dir ++ "/" ++ (serial ++ "_" ++ st.filename)
    rw [hshape]
    exact hv1
  · show pyReplace st.telemetry_path st.filename (serial ++ "_" ++ st.filename) =
      (st.video_dir ++ "/" ++ (serial ++ "_" ++ st.filename)) ++ ".bin"
    rw [htel, hshape]
    exact ht1
  all_goals
    exact pyJoin_eq _ _ hdir1 hdir2 (take_one_serial_append serial st.filename _ hhead)

/-- Witness for the amended C4 theorem at the concrete run
`/videos/GH010042.MP4`. -/
theorem claim_C4_amended_witness :
    (process_prepend_filename_with_serial scenarioState fdscScenarioBytes
          true).state.video_dir = scenarioState.video_dir ∧
      (process_prepend_filename_with_serial scenarioState fdscScenarioBytes
          true).state.filename =
        "C3221234567890" ++ "_" ++ scenarioState.filename ∧
      (process_prepend_filename_with_serial scenarioState fdscScenarioBytes
          true).state.video_path =
        scenarioState.video_dir ++ "/" ++
          ("C3221234567890" ++ "_" ++ scenarioState.filename) ∧
      (process_prepend_filename_with_serial scenarioState fdscScenarioBytes
          true).state.telemetry_path =
        (scenarioState.video_dir ++ "/" ++
          ("C3221234567890" ++ "_" ++ scenarioState.filename)) ++ ".bin" ∧
      pyJoin scenarioState.video_dir
          (("C3221234567890" ++ "_" ++ scenarioState.filename) ++ ".gpx") =
        scenarioState.video_dir ++ "/" ++
          (("C3221234567890" ++ "_" ++ scenarioState.filename) ++ ".gpx") ∧
      pyJoin scenarioState.video_dir
          (("C3221234567890" ++ "_" ++ scenarioState.filename) ++ ".json") =
        scenarioState.video_dir ++ "/" ++
          (("C3221234567890" ++ "_" ++ scenarioState.filename) ++ ".json") ∧
      pyJoin scenarioState.video_dir
          (("C3221234567890" ++ "_" ++ scenarioState.filename) ++ ".csv") =
        scenarioState.video_dir ++ "/" ++
          (("C3221234567890" ++ "_" ++ scenarioState.filename) ++ ".csv") ∧
      pyJoin scenarioState.video_dir
          (("C3221234567890" ++ "_" ++ scenarioState.filename) ++ ".kml") =
        scenarioState.video_dir ++ "/" ++
          (("C3221234567890" ++ "_" ++ scenarioState.filename) ++ ".kml") :=
  claim_C4_amended scenarioState fdscScenarioBytes "C3221234567890"
    (by decide) (by decide) (by decide) (by decide) (by decide) (by decide)
    (by decide) (by decide) (by decide)

end GoProTelemetry
